import Mathlib

/-!
Verification of the `ask433` ASK/OOK modem driver.

This file gives a shallow embedding of the crate's core modules
(`encoding.rs`, `crc.rs`, `pll.rs`, `driver.rs`, `std` feature) into Lean:
machine integers (`u8`, `u16`) become `Nat` with explicit `% 2^w` where the
Rust code could wrap, `Vec<u8>` becomes `List Nat`, and the `embedded-hal`
pin reads/writes become an explicit `Bool` input per tick and a recorded
trace of output-pin writes.  Theorems about the embedded definitions settle
the specification claims.
-/

namespace Ask

/-! ## Symbol codec (`encoding.rs`) -/

/-- Embeds `SYMBOLS`, the 4b6b encoding symbol table. -/
def SYMBOLS : List Nat :=
  [0xd, 0xe, 0x13, 0x15, 0x16, 0x19, 0x1a, 0x1c,
   0x23, 0x25, 0x26, 0x29, 0x2a, 0x2c, 0x32, 0x34]

/-- Embeds `encode_4b6b`: an 8-bit byte becomes two 6-bit symbols,
high nibble first.  (Indexing is total in Rust because `byte >> 4` and
`byte & 0x0F` are below 16; we use `getD` with an irrelevant default.) -/
def encode_4b6b (byte : Nat) : List Nat :=
  [SYMBOLS.getD (byte >>> 4) 0, SYMBOLS.getD (byte &&& 0x0F) 0]

/-- Embeds `decode_6b4b`: `SYMBOLS.iter().position(..).unwrap_or(0)` on each
symbol, then `(b1 << 4) | b2`.  Note the Rust function returns a plain `u8`
and silently maps an out-of-table symbol to index 0. -/
def decode_6b4b (symbol1 symbol2 : Nat) : Nat :=
  let b1 := (SYMBOLS.findIdx? (fun s => s == symbol1)).getD 0
  let b2 := (SYMBOLS.findIdx? (fun s => s == symbol2)).getD 0
  (b1 <<< 4) ||| b2

/-- Embeds `encode_buffer`: concatenated per-byte encoding. -/
def encode_buffer (input : List Nat) : List Nat :=
  input.flatMap encode_4b6b

/-! ## CRC-CCITT (`crc.rs`) -/

/-- Embeds `lo8`. -/
def lo8 (x : Nat) : Nat := x &&& 0xff

/-- Embeds `hi8`. -/
def hi8 (x : Nat) : Nat := x >>> 8

/-- Embeds `crc_ccitt_update`.  All intermediate values stay below `2 ^ 16`
when `crc < 2 ^ 16` and `data < 2 ^ 16`, so the `u16` arithmetic never
wraps and no explicit reduction is needed; the two `as u8` casts are the
`&&& 0xff` masks. -/
def crc_ccitt_update (crc data : Nat) : Nat :=
  let d1 := data ^^^ lo8 crc
  let d2 := d1 ^^^ (d1 <<< 4)
  let d3 := d2 &&& 0xff
  ((d3 <<< 8) ||| hi8 crc) ^^^ (d3 >>> 4) ^^^ (d3 <<< 3)

/-- Running CRC over a byte list from the protocol seed `0xffff`, as done by
`validate_rx_buf` and `send`. -/
def crcFold (bytes : List Nat) : Nat :=
  bytes.foldl crc_ccitt_update 0xffff

/-! Three views of the inner bytes of `crc_ccitt_update`, used to analyse it:
`g` is the byte scrambling (`d ^ (d << 4)` truncated to 8 bits), `k` is the
high byte of the update's output contribution and `m` its low byte. -/

/-- Byte scrambling step of the CRC update: `(e ^^^ (e <<< 4)) &&& 0xff`. -/
def gScr (e : Nat) : Nat := (e ^^^ (e <<< 4)) &&& 0xff

/-- High byte of `(d <<< 8) ^^^ (d >>> 4) ^^^ (d <<< 3)` for `d < 256`. -/
def kHi (d : Nat) : Nat := d ^^^ (d >>> 5)

/-- Low byte of `(d <<< 8) ^^^ (d >>> 4) ^^^ (d <<< 3)` for `d < 256`. -/
def mLo (d : Nat) : Nat := ((d >>> 4) ^^^ (d <<< 3)) &&& 0xff

/-! ## Software PLL (`pll.rs`) -/

/-- Embeds the state of `SoftwarePLL`.  `u8`/`u16` fields are `Nat` with
wrapping made explicit inside `update`; the receive buffer `buf` (a `Vec`)
is a `List Nat`. -/
structure SoftwarePLL where
  bits : Nat
  ramp : Nat
  integrator : Nat
  last_sample : Bool
  bit_count : Nat
  ramp_len : Nat
  ramp_inc : Nat
  ramp_retard : Nat
  ramp_advance : Nat
  inverted : Bool
  active : Bool
  buf_len : Nat
  count : Nat
  bad : Nat
  full : Bool
  buf : List Nat
deriving Repr, DecidableEq

/-- Embeds `SoftwarePLL::new`. -/
def SoftwarePLL.new (ticks_per_bit : Nat) (inverted : Bool) : SoftwarePLL :=
  let ramp_len := ticks_per_bit * 20
  let ramp_inc := ramp_len / ticks_per_bit
  let ramp_adjust := 9
  let ramp_retard := ramp_inc - ramp_adjust
  let ramp_advance := ramp_inc + ramp_adjust
  { bits := 0, ramp := 0, integrator := 0, last_sample := false, bit_count := 0,
    ramp_len := ramp_len, ramp_inc := ramp_inc, ramp_retard := ramp_retard,
    ramp_advance := ramp_advance, inverted := inverted, active := false,
    buf_len := 0, count := 0, bad := 0, full := false, buf := [] }

/-- Polarity-adjusted sample, the `sample` local of `SoftwarePLL::update`. -/
def SoftwarePLL.sampleOf (s : SoftwarePLL) (rx_high : Bool) : Bool :=
  if s.inverted then !rx_high else rx_high

/-- Integrator value after the sample-counting step of `update`
(`u8` increment, hence `% 256`). -/
def SoftwarePLL.integAfter (s : SoftwarePLL) (rx_high : Bool) : Nat :=
  if s.sampleOf rx_high then (s.integrator + 1) % 256 else s.integrator

/-- Ramp value after the phase-adjustment step of `update` (`u16` addition,
hence `% 65536`): `ramp_retard`/`ramp_advance` on a transition depending on
which half of the bit period it falls in, `ramp_inc` otherwise. -/
def SoftwarePLL.rampAfter (s : SoftwarePLL) (rx_high : Bool) : Nat :=
  (s.ramp +
    (if s.sampleOf rx_high ≠ s.last_sample then
      (if s.ramp < s.ramp_len / 2 then s.ramp_retard else s.ramp_advance)
    else s.ramp_inc)) % 65536

/-- The 12-bit window after a bit boundary: shifted right one place with the
majority-vote bit (integrator ≥ 5) placed at bit 11. -/
def SoftwarePLL.bitsAfter (s : SoftwarePLL) (rx_high : Bool) : Nat :=
  (s.bits >>> 1) ||| (if 5 ≤ s.integAfter rx_high then 0x800 else 0)

/-- The byte decoded at a 12-bit symbol-pair completion: the low six window
bits are the high nibble symbol, the upper six the low nibble symbol. -/
def SoftwarePLL.byteAfter (s : SoftwarePLL) (rx_high : Bool) : Nat :=
  decode_6b4b (s.bitsAfter rx_high &&& 0x3f) (s.bitsAfter rx_high >>> 6)

/-- Embeds `SoftwarePLL::update`, with the RX pin read
(`rx.is_high().unwrap_or(false)`) abstracted as the `rx_high` argument. -/
def SoftwarePLL.update (s : SoftwarePLL) (rx_high : Bool) : SoftwarePLL :=
  let sample := s.sampleOf rx_high
  let integrator1 := s.integAfter rx_high
  let ramp1 := s.rampAfter rx_high
  if s.ramp_len ≤ ramp1 then
    let bits1 := s.bitsAfter rx_high
    let base := { s with bits := bits1, ramp := ramp1 - s.ramp_len,
                         integrator := 0, last_sample := sample }
    if s.active then
      let bc := (s.bit_count + 1) % 256
      if 12 ≤ bc then
        let this_byte := s.byteAfter rx_high
        if s.buf_len = 0 ∧ (this_byte < 7 ∨ 67 < this_byte) then
          { base with bit_count := bc, count := this_byte, active := false,
                      bad := (s.bad + 1) % 65536 }
        else
          let count1 := if s.buf_len = 0 then this_byte else s.count
          let buf1 := s.buf ++ [this_byte]
          let bl1 := (s.buf_len + 1) % 256
          if count1 ≤ bl1 then
            { base with bit_count := 0, count := count1, buf := buf1,
                        buf_len := bl1, active := false, full := true }
          else
            { base with bit_count := 0, count := count1, buf := buf1,
                        buf_len := bl1 }
      else { base with bit_count := bc }
    else if bits1 = 0xb38 then
      { base with active := true, bit_count := 0, buf_len := 0 }
    else base
  else
    { s with integrator := integrator1, ramp := ramp1, last_sample := sample }

/-- Folding a list of RX samples through the PLL, oldest first. -/
def pllRun (s : SoftwarePLL) (samples : List Bool) : SoftwarePLL :=
  samples.foldl SoftwarePLL.update s

/-! ## Driver (`driver.rs`, `std` feature) -/

/-- Embeds `AskMode`. -/
inductive AskMode where
  | Sleep
  | Idle
  | Tx
  | Rx
  | Cad
deriving Repr, DecidableEq

/-- Embeds `AskDriver::PREAMBLE`. -/
def PREAMBLE : List Nat := [0x2a, 0x2a, 0x2a, 0x2a, 0x2a, 0x2a, 0x38, 0x2c]

/-- Embeds the state of `AskDriver`.  The TX and PTT output pins are modelled
by their current level (`txPin`, `pttPin`) together with a trace of the
levels written to them (`txTrace`, `pttTrace`), so that "a bit is emitted"
is observable; `has_ptt` models `ptt: Option<PTT>` being `Some`. -/
structure AskDriver where
  mode : AskMode
  txPin : Bool
  txTrace : List Bool
  pttPin : Bool
  pttTrace : List Bool
  has_ptt : Bool
  pll : SoftwarePLL
  ticks_per_bit : Nat
  tick_counter : Nat
  tx_buf : List Nat
  this_address : Nat
  promiscuous : Bool
  tx_header_to : Nat
  tx_header_from : Nat
  tx_header_id : Nat
  tx_header_flags : Nat
  rx_header_to : Nat
  rx_header_from : Nat
  rx_header_id : Nat
  rx_header_flags : Nat
  ptt_inverted : Bool
  tx_index : Nat
  tx_bit : Nat
  tx_sample : Nat
  tx_buf_len : Nat
  tx_good : Nat
  rx_bad : Nat
  rx_good : Nat
  rx_buf_valid : Bool
deriving Repr, DecidableEq

/-- Embeds `AskDriver::write_tx`. -/
def AskDriver.write_tx (d : AskDriver) (mode : Bool) : AskDriver :=
  { d with txPin := mode, txTrace := d.txTrace ++ [mode] }

/-- Embeds `AskDriver::write_ptt`. -/
def AskDriver.write_ptt (d : AskDriver) (mode : Bool) : AskDriver :=
  let state := if d.ptt_inverted then !mode else mode
  if d.has_ptt then { d with pttPin := state, pttTrace := d.pttTrace ++ [state] }
  else d

/-- Embeds `AskDriver::set_mode_idle`. -/
def AskDriver.set_mode_idle (d : AskDriver) : AskDriver :=
  if d.mode ≠ AskMode.Idle then
    { (d.write_ptt false).write_tx false with mode := AskMode.Idle }
  else d

/-- Embeds `AskDriver::set_mode_rx`. -/
def AskDriver.set_mode_rx (d : AskDriver) : AskDriver :=
  if d.mode ≠ AskMode.Rx then
    { (d.write_ptt false).write_tx false with mode := AskMode.Rx }
  else d

/-- Embeds `AskDriver::set_mode_tx`. -/
def AskDriver.set_mode_tx (d : AskDriver) : AskDriver :=
  if d.mode ≠ AskMode.Tx then
    { ({ d with tx_index := 0, tx_bit := 0, tx_sample := 0 }).write_ptt true with
        mode := AskMode.Tx }
  else d

/-- Embeds `AskDriver::new` (which ends in a no-op `set_mode_idle`, the mode
already being `Idle`).  The initial `tx.set_low()` is the first entry of the
TX trace. -/
def AskDriver.new (ticks_per_bit : Nat) (has_ptt ptt_inverted rx_inverted : Bool) :
    AskDriver :=
  { mode := AskMode.Idle, txPin := false, txTrace := [false],
    pttPin := false, pttTrace := [], has_ptt := has_ptt,
    pll := SoftwarePLL.new ticks_per_bit rx_inverted,
    ticks_per_bit := ticks_per_bit, tick_counter := 0,
    tx_buf := PREAMBLE, this_address := 255, promiscuous := false,
    tx_header_to := 255, tx_header_from := 255, tx_header_id := 0,
    tx_header_flags := 0, rx_header_to := 0, rx_header_from := 0,
    rx_header_id := 0, rx_header_flags := 0, ptt_inverted := ptt_inverted,
    tx_index := 0, tx_bit := 0, tx_sample := 0, tx_buf_len := 0,
    tx_good := 0, rx_bad := 0, rx_good := 0, rx_buf_valid := false }

/-- Embeds `AskDriver::validate_rx_buf`.  The header reads `pll.buf[1..=4]`
are in bounds in Rust whenever `buf` holds a complete packet; `getD` makes
the embedding total and the bounds are proved separately. -/
def AskDriver.validate_rx_buf (d : AskDriver) : AskDriver :=
  let crc := crcFold d.pll.buf
  if crc ≠ 0xf0b8 then
    { d with rx_bad := (d.rx_bad + 1) % 65536, rx_buf_valid := false }
  else
    let d1 := { d with rx_header_to := d.pll.buf.getD 1 0,
                       rx_header_from := d.pll.buf.getD 2 0,
                       rx_header_id := d.pll.buf.getD 3 0,
                       rx_header_flags := d.pll.buf.getD 4 0 }
    if d1.promiscuous ∨ d1.rx_header_to = d1.this_address ∨ d1.rx_header_to = 255 then
      { d1 with rx_good := (d1.rx_good + 1) % 65536, rx_buf_valid := true }
    else d1

/-- Embeds `AskDriver::availabile` (the crate's spelling), returning the new
driver state together with the returned boolean. -/
def AskDriver.availabile (d : AskDriver) : AskDriver × Bool :=
  if d.mode = AskMode.Tx then (d, false)
  else
    let d1 := d.set_mode_rx
    let d2 :=
      if d1.pll.full then
        let v := d1.validate_rx_buf
        { v with pll := { v.pll with full := false } }
      else d1
    (d2, d2.rx_buf_valid)

/-- Embeds `AskDriver::receive` (`std` version).  The Rust slice
`buf[5..message_len]` (with `message_len = buf_len - 2` on a wrapping `u8`)
is `(buf.take message_len).drop 5`; its in-bounds conditions are proved
separately. -/
def AskDriver.receive (d : AskDriver) : AskDriver × Option (List Nat) :=
  let p := d.availabile
  if p.2 then
    let message_len := (p.1.pll.buf_len + 254) % 256
    let d2 := { p.1 with rx_buf_valid := false }
    (d2, some ((d2.pll.buf.take message_len).drop 5))
  else (p.1, none)

/-- Embeds `AskDriver::transmit_bit`. -/
def AskDriver.transmit_bit (d : AskDriver) : AskDriver :=
  if d.tx_buf_len ≤ d.tx_index then
    ({ d with tx_good := (d.tx_good + 1) % 65536 }).set_mode_idle
  else
    let bit := d.tx_buf.getD d.tx_index 0 &&& (1 <<< d.tx_bit)
    let d1 := { d with tx_bit := (d.tx_bit + 1) % 256 }
    let d2 := d1.write_tx (bit != 0)
    if 6 ≤ d2.tx_bit then
      { d2 with tx_bit := 0, tx_index := (d2.tx_index + 1) % 256 }
    else d2

/-- Embeds `AskDriver::tick`, with the RX pin level as the `rx_high`
argument (only read in `Rx` mode). -/
def AskDriver.tick (d : AskDriver) (rx_high : Bool) : AskDriver :=
  if d.mode = AskMode.Rx then
    let d1 := { d with pll := d.pll.update rx_high }
    if d1.pll.full && !d1.pll.active then d1.validate_rx_buf else d1
  else if d.mode = AskMode.Tx then
    let tc := (d.tick_counter + 1) % 256
    if d.ticks_per_bit ≤ tc then ({ d with tick_counter := 0 }).transmit_bit
    else { d with tick_counter := tc }
  else d

/-- Iterated `tick` with a constant RX level. -/
def AskDriver.tickN (d : AskDriver) (rx_high : Bool) : Nat → AskDriver
  | 0 => d
  | n + 1 => (d.tick rx_high).tickN rx_high n

/-- The per-byte loop of `AskDriver::send`: feeds each payload byte to the
CRC and appends its two 6-bit symbols to the buffer. -/
def sendLoop (acc : Nat × List Nat) (bytes : List Nat) : Nat × List Nat :=
  bytes.foldl (fun p b => (crc_ccitt_update p.1 b, p.2 ++ encode_4b6b b)) acc

/-- Embeds `AskDriver::send` (`std` version).  `count` is a wrapping `u8`
sum.  The `block!(wait_packet_sent())` busy-wait never returns inside a pure
model when `mode = Tx`; the embedding covers the non-blocking case and the
theorems about `send` carry the hypothesis `mode ≠ Tx`. -/
def AskDriver.send (d : AskDriver) (bytes : List Nat) : AskDriver × Bool :=
  let count := (bytes.length % 256 + 7) % 256
  if 60 < bytes.length % 256 then (d, false)
  else
    let crc0 := crc_ccitt_update 0xffff count
    let buf0 := d.tx_buf ++ encode_4b6b count
    let crc1 := crc_ccitt_update crc0 d.tx_header_to
    let buf1 := buf0 ++ encode_4b6b d.tx_header_to
    let crc2 := crc_ccitt_update crc1 d.tx_header_from
    let buf2 := buf1 ++ encode_4b6b d.tx_header_from
    let crc3 := crc_ccitt_update crc2 d.tx_header_id
    let buf3 := buf2 ++ encode_4b6b d.tx_header_id
    let crc4 := crc_ccitt_update crc3 d.tx_header_flags
    let buf4 := buf3 ++ encode_4b6b d.tx_header_flags
    let p := sendLoop (crc4, buf4) bytes
    let crc5 := p.1 ^^^ 0xffff
    let buf5 := p.2 ++
      [SYMBOLS.getD ((crc5 >>> 4) &&& 0xf) 0, SYMBOLS.getD (crc5 &&& 0xf) 0,
       SYMBOLS.getD ((crc5 >>> 12) &&& 0xf) 0, SYMBOLS.getD ((crc5 >>> 8) &&& 0xf) 0]
    let d1 := { d with tx_buf := buf5, tx_buf_len := buf5.length % 256 }
    (d1.set_mode_tx, true)

/-! ## Concrete on-air streams, used as inputs for the receive-path claims -/

/-- The six bits of a 6-bit on-air symbol, LSB first (the order
`transmit_bit` emits them). -/
def symbolBits (sym : Nat) : List Bool :=
  (List.range 6).map (fun i => sym.testBit i)

/-- A full RH_ASK packet (before 4b6b encoding) with the given headers and
payload: length byte, four headers, payload, and the one's-complement FCS
low byte first. -/
def mkPacket (toAddr fromAddr msgId flags : Nat) (payload : List Nat) : List Nat :=
  let body := (payload.length + 7) :: toAddr :: fromAddr :: msgId :: flags :: payload
  let fcs := crcFold body ^^^ 0xffff
  body ++ [lo8 fcs, hi8 fcs]

/-- The on-air sample stream of one packet at `tpb` ticks per bit: preamble
symbols then the encoded packet, each symbol LSB first, each bit held for
`tpb` ticks. -/
def airSamples (tpb : Nat) (packet : List Nat) : List Bool :=
  ((PREAMBLE ++ encode_buffer packet).flatMap symbolBits).flatMap
    (fun b => List.replicate tpb b)

/-- Minimal broadcast packet with id 0 and empty payload. -/
def packet1 : List Nat := mkPacket 255 255 0 0 []

/-- Minimal broadcast packet with id 1 and empty payload. -/
def packet2 : List Nat := mkPacket 255 255 1 0 []

/-- Two consecutive valid packets on the air at 8 ticks per bit. -/
def twoPacketStream : List Bool := airSamples 8 packet1 ++ airSamples 8 packet2

/-- Value of the local `crc` of `AskDriver::send` after the one's-complement
step: the running CRC over the unencoded length byte, the four headers and
the payload, complemented (`!crc` on a `u16` is `^^^ 0xffff`). -/
def sendCrc (d : AskDriver) (bytes : List Nat) : Nat :=
  crcFold ((bytes.length + 7) :: d.tx_header_to :: d.tx_header_from ::
    d.tx_header_id :: d.tx_header_flags :: bytes) ^^^ 0xffff

/-- Calibration-and-phase invariant of the PLL ramp: the phase stays below
one ramp length and the three per-tick increments never exceed it (true for
every `ticks_per_bit ≥ 2`, where `ramp_advance = 29 ≤ 40 ≤ ramp_len`). -/
def RampInv (s : SoftwarePLL) : Prop :=
  s.ramp < s.ramp_len ∧ s.ramp_inc ≤ s.ramp_len ∧ s.ramp_retard ≤ s.ramp_len ∧
    s.ramp_advance ≤ s.ramp_len ∧ s.ramp_len ≤ 5100

/-- Structural sanity of the PLL receive state: while a packet is being
collected the announced length is a checked one (`7 ≤ count ≤ 67`) and
`buf_len` has not yet reached it, and `buf_len` never exceeds the byte
buffer's length nor `MAX_PAYLOAD`. -/
def PllSane (s : SoftwarePLL) : Prop :=
  (s.active = true → 1 ≤ s.buf_len →
    7 ≤ s.count ∧ s.count ≤ 67 ∧ s.buf_len < s.count) ∧
  s.buf_len ≤ s.buf.length ∧ s.buf_len ≤ 67

/-! ## Helper lemmas -/

theorem shiftRight_xor (a b n : Nat) : (a ^^^ b) >>> n = (a >>> n) ^^^ (b >>> n) := by
  apply Nat.eq_of_testBit_eq
  intro i
  simp [Nat.testBit_shiftRight, Nat.testBit_xor]

theorem shiftRight_or (a b n : Nat) : (a ||| b) >>> n = (a >>> n) ||| (b >>> n) := by
  apply Nat.eq_of_testBit_eq
  intro i
  simp [Nat.testBit_shiftRight, Nat.testBit_or]

theorem lo8_xor (a b : Nat) : lo8 (a ^^^ b) = lo8 a ^^^ lo8 b :=
  Nat.and_xor_distrib_right

theorem hi8_xor (a b : Nat) : hi8 (a ^^^ b) = hi8 a ^^^ hi8 b :=
  shiftRight_xor a b 8

theorem lo8_lt (x : Nat) : lo8 x < 256 :=
  Nat.and_lt_two_pow x (by norm_num : (0xff : Nat) < 2 ^ 8)

theorem lo8_eq_mod (x : Nat) : lo8 x = x % 256 := by
  rw [lo8, show (0xff : Nat) = 2 ^ 8 - 1 from rfl, Nat.and_pow_two_sub_one_eq_mod]

theorem hi8_eq_div (x : Nat) : hi8 x = x / 256 := by
  rw [hi8, Nat.shiftRight_eq_div_pow]

theorem hi8_lt {x : Nat} (h : x < 65536) : hi8 x < 256 := by
  rw [hi8_eq_div]
  omega

theorem and255_of_lt {x : Nat} (h : x < 256) : x &&& 255 = x := by
  rw [show (255 : Nat) = 2 ^ 8 - 1 from rfl, Nat.and_pow_two_sub_one_eq_mod]
  omega

theorem hi_lo_ext (x y : Nat) (hh : hi8 x = hi8 y) (hl : lo8 x = lo8 y) : x = y := by
  rw [hi8_eq_div x, hi8_eq_div y] at hh
  rw [lo8_eq_mod x, lo8_eq_mod y] at hl
  omega

theorem xor_right_cancel (a b c : Nat) (h : a ^^^ c = b ^^^ c) : a = b := by
  have h2 : (a ^^^ c) ^^^ c = (b ^^^ c) ^^^ c := by rw [h]
  rwa [Nat.xor_assoc, Nat.xor_self, Nat.xor_zero, Nat.xor_assoc, Nat.xor_self,
    Nat.xor_zero] at h2

theorem xor_pair (a b c : Nat) : (a ^^^ b) ^^^ (a ^^^ c) = b ^^^ c := by
  apply Nat.eq_of_testBit_eq
  intro i
  simp only [Nat.testBit_xor]
  cases a.testBit i <;> cases b.testBit i <;> cases c.testBit i <;> rfl

theorem xor_lt_256 {a b : Nat} (ha : a < 256) (hb : b < 256) : a ^^^ b < 256 :=
  Nat.xor_lt_two_pow (n := 8) ha hb

theorem xor_lt_65536 {a b : Nat} (ha : a < 65536) (hb : b < 65536) :
    a ^^^ b < 65536 :=
  Nat.xor_lt_two_pow (n := 16) ha hb

theorem shl8_shr8 (d : Nat) : (d <<< 8) >>> 8 = d := by
  rw [Nat.shiftLeft_eq, Nat.shiftRight_eq_div_pow]
  exact Nat.mul_div_cancel d (by norm_num)

theorem shl3_shr8 (d : Nat) : (d <<< 3) >>> 8 = d >>> 5 := by
  rw [Nat.shiftLeft_eq, Nat.shiftRight_eq_div_pow, Nat.shiftRight_eq_div_pow]
  omega

theorem shl8_and255 (d : Nat) : (d <<< 8) &&& 255 = 0 := by
  rw [show (255 : Nat) = 2 ^ 8 - 1 from rfl, Nat.and_pow_two_sub_one_eq_mod,
    Nat.shiftLeft_eq]
  omega

theorem gScr_lt (e : Nat) : gScr e < 256 :=
  Nat.and_lt_two_pow _ (by norm_num : (0xff : Nat) < 2 ^ 8)

theorem mLo_lt (d : Nat) : mLo d < 256 :=
  Nat.and_lt_two_pow _ (by norm_num : (0xff : Nat) < 2 ^ 8)

theorem update_eq (c b : Nat) :
    crc_ccitt_update c b =
      ((gScr (b ^^^ lo8 c) <<< 8) ||| hi8 c) ^^^ (gScr (b ^^^ lo8 c) >>> 4) ^^^
        (gScr (b ^^^ lo8 c) <<< 3) := rfl

theorem update_lt (c b : Nat) (hc : c < 65536) : crc_ccitt_update c b < 65536 := by
  rw [update_eq]
  have hd : gScr (b ^^^ lo8 c) < 256 := gScr_lt _
  apply xor_lt_65536
  apply xor_lt_65536
  · apply Nat.or_lt_two_pow (n := 16)
    · rw [Nat.shiftLeft_eq]
      have : (2 : Nat) ^ 16 = 65536 := by norm_num
      rw [this]
      omega
    · have : hi8 c < 256 := hi8_lt hc
      have h2 : (2 : Nat) ^ 16 = 65536 := by norm_num
      omega
  · rw [Nat.shiftRight_eq_div_pow]
    have h2 : (2 : Nat) ^ 16 = 65536 := by norm_num
    omega
  · rw [Nat.shiftLeft_eq]
    have h2 : (2 : Nat) ^ 16 = 65536 := by norm_num
    omega

theorem hi8_update (c b : Nat) (hc : c < 65536) :
    hi8 (crc_ccitt_update c b) = kHi (gScr (b ^^^ lo8 c)) := by
  have hd : gScr (b ^^^ lo8 c) < 256 := gScr_lt (b ^^^ lo8 c)
  rw [show hi8 (crc_ccitt_update c b) =
      ((gScr (b ^^^ lo8 c) <<< 8 ||| hi8 c) ^^^ gScr (b ^^^ lo8 c) >>> 4 ^^^
        gScr (b ^^^ lo8 c) <<< 3) >>> 8 from rfl]
  rw [shiftRight_xor, shiftRight_xor, shiftRight_or, shl8_shr8, shl3_shr8]
  have h1 : gScr (b ^^^ lo8 c) >>> 4 >>> 8 = 0 := by
    rw [Nat.shiftRight_eq_div_pow, Nat.shiftRight_eq_div_pow]
    omega
  have h2 : hi8 c >>> 8 = 0 := by
    have := hi8_lt hc
    rw [Nat.shiftRight_eq_div_pow]
    omega
  rw [h1, h2, Nat.or_zero, Nat.xor_zero, kHi]

theorem lo8_update (c b : Nat) (hc : c < 65536) :
    lo8 (crc_ccitt_update c b) = hi8 c ^^^ mLo (gScr (b ^^^ lo8 c)) := by
  have hd : gScr (b ^^^ lo8 c) < 256 := gScr_lt (b ^^^ lo8 c)
  rw [show lo8 (crc_ccitt_update c b) =
      ((gScr (b ^^^ lo8 c) <<< 8 ||| hi8 c) ^^^ gScr (b ^^^ lo8 c) >>> 4 ^^^
        gScr (b ^^^ lo8 c) <<< 3) &&& 255 from rfl]
  rw [Nat.and_xor_distrib_right, Nat.and_xor_distrib_right, Nat.and_distrib_right]
  rw [shl8_and255, and255_of_lt (hi8_lt hc), mLo, Nat.and_xor_distrib_right]
  simp [Nat.xor_assoc]

set_option maxRecDepth 4000 in
set_option maxHeartbeats 1600000 in
theorem kHi_inj : ∀ x, x < 256 → ∀ y, y < 256 → kHi x = kHi y → x = y := by
  decide

set_option maxRecDepth 4000 in
set_option maxHeartbeats 1600000 in
theorem gScr_inj : ∀ x, x < 256 → ∀ y, y < 256 → gScr x = gScr y → x = y := by
  decide

theorem foldl_update_lt (l : List Nat) :
    ∀ c, c < 65536 → l.foldl crc_ccitt_update c < 65536 := by
  induction l with
  | nil => intro c hc; simpa using hc
  | cons x xs ih => intro c hc; exact ih _ (update_lt _ _ hc)

theorem crcFold_lt (l : List Nat) : crcFold l < 65536 :=
  foldl_update_lt l 0xffff (by norm_num)

/-- Extending a running CRC value `c < 2 ^ 16` with the two bytes of its
one's complement (low byte first) always lands on the magic value `0xf0b8`. -/
theorem crc_finalize (c : Nat) (hc : c < 65536) :
    crc_ccitt_update (crc_ccitt_update c (lo8 (c ^^^ 0xffff))) (hi8 (c ^^^ 0xffff)) =
      0xf0b8 := by
  have e1 : lo8 (c ^^^ 0xffff) = lo8 c ^^^ 255 := by
    rw [lo8_xor, show lo8 0xffff = 255 from rfl]
  have e2 : hi8 (c ^^^ 0xffff) = hi8 c ^^^ 255 := by
    rw [hi8_xor, show hi8 0xffff = 255 from rfl]
  have harg1 : lo8 (c ^^^ 0xffff) ^^^ lo8 c = 255 := by
    rw [e1, Nat.xor_comm (lo8 c) 255, Nat.xor_assoc, Nat.xor_self, Nat.xor_zero]
  have hc1lt : crc_ccitt_update c (lo8 (c ^^^ 0xffff)) < 65536 := update_lt _ _ hc
  have h1hi : hi8 (crc_ccitt_update c (lo8 (c ^^^ 0xffff))) = 15 := by
    rw [hi8_update _ _ hc, harg1]
    rfl
  have h1lo : lo8 (crc_ccitt_update c (lo8 (c ^^^ 0xffff))) = hi8 c ^^^ 120 := by
    rw [lo8_update _ _ hc, harg1, show mLo (gScr 255) = 120 from rfl]
  have harg2 : hi8 (c ^^^ 0xffff) ^^^ lo8 (crc_ccitt_update c (lo8 (c ^^^ 0xffff))) =
      135 := by
    rw [e2, h1lo, xor_pair]
    decide
  apply hi_lo_ext
  · rw [hi8_update _ _ hc1lt, harg2]
    rfl
  · rw [lo8_update _ _ hc1lt, harg2, h1hi]
    rfl

/-- Injectivity of the two-byte CRC extension in the two appended bytes. -/
theorem update2_inj (c : Nat) (hc : c < 65536) (a1 b1 a2 b2 : Nat)
    (ha1 : a1 < 256) (hb1 : b1 < 256) (ha2 : a2 < 256) (hb2 : b2 < 256)
    (heq : crc_ccitt_update (crc_ccitt_update c a1) b1 =
           crc_ccitt_update (crc_ccitt_update c a2) b2) :
    a1 = a2 ∧ b1 = b2 := by
  have hc1 : crc_ccitt_update c a1 < 65536 := update_lt _ _ hc
  have hc2 : crc_ccitt_update c a2 < 65536 := update_lt _ _ hc
  have hHi := congrArg hi8 heq
  rw [hi8_update _ _ hc1, hi8_update _ _ hc2] at hHi
  have hd : gScr (b1 ^^^ lo8 (crc_ccitt_update c a1)) =
      gScr (b2 ^^^ lo8 (crc_ccitt_update c a2)) :=
    kHi_inj _ (gScr_lt _) _ (gScr_lt _) hHi
  have hLo := congrArg lo8 heq
  rw [lo8_update _ _ hc1, lo8_update _ _ hc2, hd] at hLo
  have hhc : hi8 (crc_ccitt_update c a1) = hi8 (crc_ccitt_update c a2) :=
    xor_right_cancel _ _ _ hLo
  rw [hi8_update _ _ hc, hi8_update _ _ hc] at hhc
  have hd1 : gScr (a1 ^^^ lo8 c) = gScr (a2 ^^^ lo8 c) :=
    kHi_inj _ (gScr_lt _) _ (gScr_lt _) hhc
  have hxl : a1 ^^^ lo8 c = a2 ^^^ lo8 c :=
    gScr_inj _ (xor_lt_256 ha1 (lo8_lt c)) _ (xor_lt_256 ha2 (lo8_lt c)) hd1
  have hll : a1 = a2 := xor_right_cancel _ _ _ hxl
  subst hll
  refine ⟨rfl, ?_⟩
  have hxh : b1 ^^^ lo8 (crc_ccitt_update c a1) = b2 ^^^ lo8 (crc_ccitt_update c a1) :=
    gScr_inj _ (xor_lt_256 hb1 (lo8_lt _)) _ (xor_lt_256 hb2 (lo8_lt _)) hd
  exact xor_right_cancel _ _ _ hxh

theorem pllRun_append (s : SoftwarePLL) (a b : List Bool) :
    pllRun s (a ++ b) = pllRun (pllRun s a) b := by
  simp [pllRun, List.foldl_append]

theorem pllRun_split (n : Nat) (s : SoftwarePLL) (l : List Bool) :
    pllRun s l = pllRun (pllRun s (l.take n)) (l.drop n) := by
  rw [← pllRun_append, List.take_append_drop]

/-! Intermediate PLL states along `twoPacketStream`, each segment short
enough to evaluate directly.  The field order of the literals is that of the
`SoftwarePLL` structure. -/

set_option maxRecDepth 8000 in
theorem pllChunkA1 :
    pllRun (SoftwarePLL.new 8 false) ((airSamples 8 packet1).take 264) =
      ⟨1365, 0, 0, false, 0, 160, 20, 11, 29, false, false, 0, 0, 0, false, []⟩ := by
  decide

set_option maxRecDepth 8000 in
theorem pllChunkA2 :
    pllRun ⟨1365, 0, 0, false, 0, 160, 20, 11, 29, false, false, 0, 0, 0, false, []⟩
        (((airSamples 8 packet1).drop 264).take 264) =
      ⟨2616, 151, 7, true, 5, 160, 20, 11, 29, false, true, 1, 7, 0, false, [7]⟩ := by
  decide

set_option maxRecDepth 8000 in
theorem pllChunkA3 :
    pllRun ⟨2616, 151, 7, true, 5, 160, 20, 11, 29, false, true, 1, 7, 0, false, [7]⟩
        ((((airSamples 8 packet1).drop 264).drop 264).take 264) =
      ⟨1235, 151, 8, true, 2, 160, 20, 11, 29, false, true, 4, 7, 0, false,
        [7, 255, 255, 0]⟩ := by
  decide

set_option maxRecDepth 8000 in
theorem pllChunkA4 :
    pllRun ⟨1235, 151, 8, true, 2, 160, 20, 11, 29, false, true, 4, 7, 0, false,
        [7, 255, 255, 0]⟩
        ((((airSamples 8 packet1).drop 264).drop 264).drop 264) =
      ⟨1385, 151, 8, true, 11, 160, 20, 11, 29, false, true, 6, 7, 0, false,
        [7, 255, 255, 0, 0, 138]⟩ := by
  decide

/-- State of the PLL after the full on-air stream of `packet1`: the packet is
one bit boundary short of completion (`buf_len = 6`). -/
theorem pllPhase1 :
    pllRun (SoftwarePLL.new 8 false) (airSamples 8 packet1) =
      ⟨1385, 151, 8, true, 11, 160, 20, 11, 29, false, true, 6, 7, 0, false,
        [7, 255, 255, 0, 0, 138]⟩ := by
  rw [pllRun_split 264, pllChunkA1, pllRun_split 264, pllChunkA2,
    pllRun_split 264, pllChunkA3, pllChunkA4]

set_option maxRecDepth 8000 in
theorem pllChunkB1 :
    pllRun ⟨1385, 151, 8, true, 11, 160, 20, 11, 29, false, true, 6, 7, 0, false,
        [7, 255, 255, 0, 0, 138]⟩
        ((airSamples 8 packet2).take 264) =
      ⟨1365, 0, 0, false, 0, 160, 20, 11, 29, false, false, 7, 7, 0, true,
        [7, 255, 255, 0, 0, 138, 252]⟩ := by
  decide

set_option maxRecDepth 8000 in
theorem pllChunkB2 :
    pllRun ⟨1365, 0, 0, false, 0, 160, 20, 11, 29, false, false, 7, 7, 0, true,
        [7, 255, 255, 0, 0, 138, 252]⟩
        (((airSamples 8 packet2).drop 264).take 264) =
      ⟨2616, 151, 7, true, 5, 160, 20, 11, 29, false, true, 1, 7, 0, true,
        [7, 255, 255, 0, 0, 138, 252, 7]⟩ := by
  decide

set_option maxRecDepth 8000 in
theorem pllChunkB3 :
    pllRun ⟨2616, 151, 7, true, 5, 160, 20, 11, 29, false, true, 1, 7, 0, true,
        [7, 255, 255, 0, 0, 138, 252, 7]⟩
        ((((airSamples 8 packet2).drop 264).drop 264).take 264) =
      ⟨1251, 151, 8, true, 2, 160, 20, 11, 29, false, true, 4, 7, 0, true,
        [7, 255, 255, 0, 0, 138, 252, 7, 255, 255, 1]⟩ := by
  decide

set_option maxRecDepth 8000 in
theorem pllChunkB4 :
    pllRun ⟨1251, 151, 8, true, 2, 160, 20, 11, 29, false, true, 4, 7, 0, true,
        [7, 255, 255, 0, 0, 138, 252, 7, 255, 255, 1]⟩
        ((((airSamples 8 packet2).drop 264).drop 264).drop 264) =
      ⟨1650, 0, 0, false, 0, 160, 20, 11, 29, false, false, 7, 7, 0, true,
        [7, 255, 255, 0, 0, 138, 252, 7, 255, 255, 1, 0, 82, 229]⟩ := by
  decide

/-- State of the PLL after both packets. -/
theorem pllPhase2 :
    pllRun (SoftwarePLL.new 8 false) twoPacketStream =
      ⟨1650, 0, 0, false, 0, 160, 20, 11, 29, false, false, 7, 7, 0, true,
        [7, 255, 255, 0, 0, 138, 252, 7, 255, 255, 1, 0, 82, 229]⟩ := by
  show pllRun (SoftwarePLL.new 8 false) (airSamples 8 packet1 ++ airSamples 8 packet2) = _
  rw [pllRun_append, pllPhase1, pllRun_split 264, pllChunkB1,
    pllRun_split 264, pllChunkB2, pllRun_split 264, pllChunkB3, pllChunkB4]

/-! ## Claims -/

set_option maxRecDepth 4000 in
/-- Claim C3: for every byte `b` in `0..256`, encoding `b` into two 6-bit
symbols with `encode_4b6b` (high nibble first through the 16-entry `SYMBOLS`
table) and decoding the pair with `decode_6b4b` returns exactly `b`. -/
theorem c3_roundtrip : ∀ b, b < 256 →
    decode_6b4b ((encode_4b6b b).getD 0 0) ((encode_4b6b b).getD 1 0) = b := by
  decide

/-- Witness for C3 at the concrete byte `0xab`. -/
theorem c3_roundtrip_witness :
    decode_6b4b ((encode_4b6b 0xab).getD 0 0) ((encode_4b6b 0xab).getD 1 0) = 0xab :=
  c3_roundtrip 0xab (by decide)

/-- Claim C4 fails on the code: `0x3f` is not in `SYMBOLS`, yet decoding a
pair containing it in either position produces a byte (`decode_6b4b` maps an
out-of-table symbol to table index 0 through `unwrap_or(0)`) instead of
failing.  `0x13` is `SYMBOLS[2]`, so the results are `0x02` and `0x20`. -/
theorem c4_invalid_symbol_decodes :
    SYMBOLS.contains 0x3f = false ∧
    decode_6b4b 0x3f 0x13 = 0x02 ∧ decode_6b4b 0x13 0x3f = 0x20 := by
  decide

set_option maxRecDepth 8000 in
/-- Claim C1 fails on the code: `send` never rebuilds `tx_buf`, it only
appends.  From a fresh driver (`ticks_per_bit = 1`), a first `send` of the
empty payload yields the claimed buffer (length `8 + 2*(1+4+0) + 4 = 22`,
preamble first), and after the transmission completes (133 ticks: 132 data
bits plus the completing call, driver back in `Idle` with `tx_good = 1`), a
second identical `send` returns `true` but starts from the stale 22-symbol
buffer and leaves `tx_buf` with 36 symbols instead of 22. -/
theorem c1_second_send_buffer_not_rebuilt :
    ((AskDriver.new 1 false false false).send []).2 = true ∧
    ((AskDriver.new 1 false false false).send []).1.tx_buf.take 8 = PREAMBLE ∧
    ((AskDriver.new 1 false false false).send []).1.tx_buf.length = 22 ∧
    ((((AskDriver.new 1 false false false).send []).1.tickN false 133).mode
      = AskMode.Idle) ∧
    ((((AskDriver.new 1 false false false).send []).1.tickN false 133).tx_good = 1) ∧
    (((((AskDriver.new 1 false false false).send []).1.tickN false 133).send []).2
      = true) ∧
    (((((AskDriver.new 1 false false false).send []).1.tickN false 133).send
      []).1.tx_buf.length = 36) := by
  decide

set_option maxRecDepth 8000 in
/-- Claim C2 fails on the code: when `active` goes from false to true only
`buf_len` is reset, the `Vec` `buf` is not cleared, so a second packet's
bytes are appended after the first packet's.  After two individually valid
on-air packets the PLL reports a full 7-byte packet (`buf_len = 7`) but
`buf` holds 14 bytes, the first 7 of which are the earlier packet's; the
whole buffer (which is what `validate_rx_buf` CRCs) no longer passes the
CRC even though each packet does on its own, and positions `0..7` do not
hold the just-completed packet. -/
theorem c2_second_packet_appended_to_stale_buffer :
    (pllRun (SoftwarePLL.new 8 false) twoPacketStream).full = true ∧
    (pllRun (SoftwarePLL.new 8 false) twoPacketStream).buf_len = 7 ∧
    (pllRun (SoftwarePLL.new 8 false) twoPacketStream).buf = packet1 ++ packet2 ∧
    (pllRun (SoftwarePLL.new 8 false) twoPacketStream).buf.take 7 ≠ packet2 ∧
    crcFold packet1 = 0xf0b8 ∧ crcFold packet2 = 0xf0b8 ∧
    crcFold (pllRun (SoftwarePLL.new 8 false) twoPacketStream).buf ≠ 0xf0b8 := by
  rw [pllPhase2]
  decide

theorem sendLoop_spec (bs : List Nat) :
    ∀ c buf, sendLoop (c, buf) bs =
      (bs.foldl crc_ccitt_update c, buf ++ encode_buffer bs) := by
  induction bs with
  | nil =>
    intro c buf
    simp [sendLoop, encode_buffer]
  | cons x xs ih =>
    intro c buf
    simp only [sendLoop, List.foldl_cons] at ih ⊢
    rw [ih]
    simp [encode_buffer]

theorem set_mode_tx_tx_buf (d : AskDriver) : d.set_mode_tx.tx_buf = d.tx_buf := by
  rw [AskDriver.set_mode_tx]
  split
  · rw [AskDriver.write_ptt]
    dsimp only
    split <;> rfl
  · rfl

/-- Unfolding of the transmit buffer built by `send` for an accepted payload:
the previous buffer contents, the 4b6b-encoded length byte, headers and
payload, then the four FCS nibble symbols. -/
theorem send_tx_buf (d : AskDriver) (bytes : List Nat) (hlen : bytes.length ≤ 60) :
    (d.send bytes).1.tx_buf =
      d.tx_buf ++
        encode_buffer ((bytes.length + 7) :: d.tx_header_to :: d.tx_header_from ::
          d.tx_header_id :: d.tx_header_flags :: bytes) ++
        [SYMBOLS.getD ((sendCrc d bytes >>> 4) &&& 0xf) 0,
         SYMBOLS.getD (sendCrc d bytes &&& 0xf) 0,
         SYMBOLS.getD ((sendCrc d bytes >>> 12) &&& 0xf) 0,
         SYMBOLS.getD ((sendCrc d bytes >>> 8) &&& 0xf) 0] := by
  have hm : bytes.length % 256 = bytes.length := Nat.mod_eq_of_lt (by omega)
  have hm7 : (bytes.length % 256 + 7) % 256 = bytes.length + 7 := by
    rw [hm]
    exact Nat.mod_eq_of_lt (by omega)
  rw [AskDriver.send]
  rw [if_neg (by omega : ¬ 60 < bytes.length % 256)]
  dsimp only
  rw [sendLoop_spec]
  dsimp only
  rw [set_mode_tx_tx_buf]
  dsimp only
  rw [hm7]
  simp only [sendCrc, crcFold, encode_buffer, List.flatMap_cons, List.foldl_cons,
    List.append_assoc, List.nil_append]

/-- Claim C5: extending the running CRC (seed `0xffff`) over
`[length, headers, payload]` with two FCS bytes, low byte first, lands on
`0xf0b8` exactly when the FCS is the one's complement of the running CRC
over the message alone; and `send` appends the complemented CRC as the four
symbol-table entries for the nibbles `(crc>>4)&0xF`, `crc&0xF`,
`(crc>>12)&0xF`, `(crc>>8)&0xF`, in that order. -/
theorem c5_crc_fcs :
    (∀ (msg : List Nat) (fcs : Nat), fcs < 65536 →
      (crcFold (msg ++ [lo8 fcs, hi8 fcs]) = 0xf0b8 ↔
        fcs = crcFold msg ^^^ 0xffff)) ∧
    (∀ (d : AskDriver) (bytes : List Nat), d.mode ≠ AskMode.Tx →
      bytes.length ≤ 60 →
      (d.send bytes).2 = true ∧
      (d.send bytes).1.tx_buf =
        d.tx_buf ++
          encode_buffer ((bytes.length + 7) :: d.tx_header_to :: d.tx_header_from ::
            d.tx_header_id :: d.tx_header_flags :: bytes) ++
          [SYMBOLS.getD ((sendCrc d bytes >>> 4) &&& 0xf) 0,
           SYMBOLS.getD (sendCrc d bytes &&& 0xf) 0,
           SYMBOLS.getD ((sendCrc d bytes >>> 12) &&& 0xf) 0,
           SYMBOLS.getD ((sendCrc d bytes >>> 8) &&& 0xf) 0]) := by
  constructor
  · intro msg fcs hf
    have hC : crcFold msg < 65536 := crcFold_lt msg
    have hF : crcFold msg ^^^ 0xffff < 65536 := xor_lt_65536 hC (by norm_num)
    have hsplit : crcFold (msg ++ [lo8 fcs, hi8 fcs]) =
        crc_ccitt_update (crc_ccitt_update (crcFold msg) (lo8 fcs)) (hi8 fcs) := by
      simp [crcFold, List.foldl_append]
    constructor
    · intro h
      rw [hsplit] at h
      have h2 := crc_finalize (crcFold msg) hC
      have hinj := update2_inj (crcFold msg) hC (lo8 fcs) (hi8 fcs)
        (lo8 (crcFold msg ^^^ 0xffff)) (hi8 (crcFold msg ^^^ 0xffff))
        (lo8_lt _) (hi8_lt hf) (lo8_lt _) (hi8_lt hF) (h.trans h2.symm)
      exact hi_lo_ext fcs (crcFold msg ^^^ 0xffff) hinj.2 hinj.1
    · intro h
      rw [hsplit, h]
      exact crc_finalize (crcFold msg) hC
  · intro d bytes hmode hlen
    refine ⟨?_, send_tx_buf d bytes hlen⟩
    rw [AskDriver.send]
    have hm : bytes.length % 256 = bytes.length := Nat.mod_eq_of_lt (by omega)
    rw [if_neg (by omega : ¬ 60 < bytes.length % 256)]

/-- Witness for C5: the CRC equivalence at the message `"Hi"` with its true
FCS `0x7926`, and the `send` buffer shape for a fresh driver sending
`"Hi"`. -/
theorem c5_crc_fcs_witness :
    ((crcFold ([0x48, 0x69] ++ [lo8 0x7926, hi8 0x7926]) = 0xf0b8 ↔
      0x7926 = crcFold [0x48, 0x69] ^^^ 0xffff)) ∧
    (((AskDriver.new 8 false false false).send [0x48, 0x69]).2 = true ∧
      ((AskDriver.new 8 false false false).send [0x48, 0x69]).1.tx_buf =
        (AskDriver.new 8 false false false).tx_buf ++
          encode_buffer ((([0x48, 0x69] : List Nat).length + 7) ::
            (AskDriver.new 8 false false false).tx_header_to ::
            (AskDriver.new 8 false false false).tx_header_from ::
            (AskDriver.new 8 false false false).tx_header_id ::
            (AskDriver.new 8 false false false).tx_header_flags :: [0x48, 0x69]) ++
          [SYMBOLS.getD
            ((sendCrc (AskDriver.new 8 false false false) [0x48, 0x69] >>> 4) &&& 0xf) 0,
           SYMBOLS.getD
            (sendCrc (AskDriver.new 8 false false false) [0x48, 0x69] &&& 0xf) 0,
           SYMBOLS.getD
            ((sendCrc (AskDriver.new 8 false false false) [0x48, 0x69] >>> 12) &&& 0xf) 0,
           SYMBOLS.getD
            ((sendCrc (AskDriver.new 8 false false false) [0x48, 0x69] >>> 8) &&& 0xf) 0]) :=
  ⟨c5_crc_fcs.1 [0x48, 0x69] 0x7926 (by decide),
   c5_crc_fcs.2 (AskDriver.new 8 false false false) [0x48, 0x69]
     (by decide) (by decide)⟩

/-! ## PLL ramp lemmas (claim C8) -/

/-- One `update` call changes the ramp exactly by a boundary subtraction (a
single `-= ramp_len`, never a modulo) and leaves the calibration constants
untouched. -/
theorem update_ramp_shape (s : SoftwarePLL) (x : Bool) :
    (s.update x).ramp =
      (if s.ramp_len ≤ s.rampAfter x then s.rampAfter x - s.ramp_len
       else s.rampAfter x) ∧
    (s.update x).ramp_len = s.ramp_len ∧
    (s.update x).ramp_inc = s.ramp_inc ∧
    (s.update x).ramp_retard = s.ramp_retard ∧
    (s.update x).ramp_advance = s.ramp_advance := by
  simp only [SoftwarePLL.update]
  split_ifs <;> exact ⟨rfl, rfl, rfl, rfl, rfl⟩

theorem rampAfter_lt (s : SoftwarePLL) (x : Bool) (h : RampInv s) :
    s.rampAfter x < 2 * s.ramp_len := by
  obtain ⟨h1, h2, h3, h4, h5⟩ := h
  rw [SoftwarePLL.rampAfter]
  have hstep :
      (if s.sampleOf x ≠ s.last_sample then
        (if s.ramp < s.ramp_len / 2 then s.ramp_retard else s.ramp_advance)
      else s.ramp_inc) ≤ s.ramp_len := by
    split_ifs <;> omega
  calc (s.ramp +
        (if s.sampleOf x ≠ s.last_sample then
          (if s.ramp < s.ramp_len / 2 then s.ramp_retard else s.ramp_advance)
        else s.ramp_inc)) % 65536
      ≤ s.ramp +
        (if s.sampleOf x ≠ s.last_sample then
          (if s.ramp < s.ramp_len / 2 then s.ramp_retard else s.ramp_advance)
        else s.ramp_inc) := Nat.mod_le _ _
    _ < 2 * s.ramp_len := by omega

theorem rampInv_update (s : SoftwarePLL) (x : Bool) (h : RampInv s) :
    RampInv (s.update x) := by
  obtain ⟨he, hlen, hinc, hret, hadv⟩ := update_ramp_shape s x
  have hlt := rampAfter_lt s x h
  obtain ⟨i1, i2, i3, i4, i5⟩ := h
  refine ⟨?_, ?_, ?_, ?_, ?_⟩
  · rw [he, hlen]
    split_ifs with hb <;> omega
  · rw [hinc, hlen]
    exact i2
  · rw [hret, hlen]
    exact i3
  · rw [hadv, hlen]
    exact i4
  · rw [hlen]
    exact i5

theorem rampInv_new (t : Nat) (inv : Bool) (h2 : 2 ≤ t) (h255 : t ≤ 255) :
    RampInv (SoftwarePLL.new t inv) := by
  have hdiv : t * 20 / t = 20 := by
    rw [Nat.mul_div_cancel_left 20 (by omega : 0 < t)]
  refine ⟨?_, ?_, ?_, ?_, ?_⟩ <;>
    simp only [SoftwarePLL.new, hdiv] <;> omega

theorem rampInv_run (samples : List Bool) :
    ∀ s, RampInv s → RampInv (pllRun s samples) := by
  induction samples with
  | nil => intro s h; simpa [pllRun] using h
  | cons x xs ih =>
    intro s h
    have : pllRun s (x :: xs) = pllRun (s.update x) xs := rfl
    rw [this]
    exact ih _ (rampInv_update s x h)

/-- Claim C8 fails as stated: with `ticks_per_bit = 1` (hence
`ramp_len = 20 < ramp_advance = 29`), five alternating samples drive the
ramp to `47 ≥ 2 * ramp_len = 40`. -/
theorem c8_ramp_bound_fails_for_one_tick_per_bit :
    (pllRun (SoftwarePLL.new 1 false) [true, false, true, false, true]).ramp = 47 ∧
    (pllRun (SoftwarePLL.new 1 false) [true, false, true, false, true]).ramp_len = 20 ∧
    ¬ ((pllRun (SoftwarePLL.new 1 false) [true, false, true, false, true]).ramp <
        2 * (pllRun (SoftwarePLL.new 1 false)
          [true, false, true, false, true]).ramp_len) := by
  decide

/-- Claim C8, amended with `2 ≤ ticks_per_bit` (so that all three ramp
increments are at most `ramp_len`): along every sample sequence the ramp
stays below `2 * ramp_len` (indeed below `ramp_len` after each call, and
below `2 * ramp_len` at the post-increment peak inside a call), and a
bit-boundary crossing reduces the ramp by subtracting `ramp_len` exactly
once, never by a modulo reduction. -/
theorem c8_ramp_invariant (t : Nat) (inv : Bool) (ht : 2 ≤ t) (ht2 : t ≤ 255)
    (samples : List Bool) :
    (pllRun (SoftwarePLL.new t inv) samples).ramp <
      (pllRun (SoftwarePLL.new t inv) samples).ramp_len ∧
    (pllRun (SoftwarePLL.new t inv) samples).ramp <
      2 * (pllRun (SoftwarePLL.new t inv) samples).ramp_len ∧
    (∀ x : Bool,
      (pllRun (SoftwarePLL.new t inv) samples).rampAfter x <
        2 * (pllRun (SoftwarePLL.new t inv) samples).ramp_len ∧
      ((pllRun (SoftwarePLL.new t inv) samples).ramp_len ≤
          (pllRun (SoftwarePLL.new t inv) samples).rampAfter x →
        ((pllRun (SoftwarePLL.new t inv) samples).update x).ramp =
          (pllRun (SoftwarePLL.new t inv) samples).rampAfter x -
            (pllRun (SoftwarePLL.new t inv) samples).ramp_len) ∧
      ((pllRun (SoftwarePLL.new t inv) samples).rampAfter x <
          (pllRun (SoftwarePLL.new t inv) samples).ramp_len →
        ((pllRun (SoftwarePLL.new t inv) samples).update x).ramp =
          (pllRun (SoftwarePLL.new t inv) samples).rampAfter x)) := by
  have hinv : RampInv (pllRun (SoftwarePLL.new t inv) samples) :=
    rampInv_run samples _ (rampInv_new t inv ht ht2)
  refine ⟨hinv.1, by have := hinv.1; omega, ?_⟩
  intro x
  have hsh := update_ramp_shape (pllRun (SoftwarePLL.new t inv) samples) x
  refine ⟨rampAfter_lt _ x hinv, ?_, ?_⟩
  · intro hb
    rw [hsh.1, if_pos hb]
  · intro hb
    rw [hsh.1, if_neg (by omega)]

/-- Witness for the amended C8 at `ticks_per_bit = 8` and a one-sample
sequence. -/
theorem c8_ramp_invariant_witness :
    (pllRun (SoftwarePLL.new 8 false) [true]).ramp <
      (pllRun (SoftwarePLL.new 8 false) [true]).ramp_len ∧
    (pllRun (SoftwarePLL.new 8 false) [true]).ramp <
      2 * (pllRun (SoftwarePLL.new 8 false) [true]).ramp_len ∧
    (∀ x : Bool,
      (pllRun (SoftwarePLL.new 8 false) [true]).rampAfter x <
        2 * (pllRun (SoftwarePLL.new 8 false) [true]).ramp_len ∧
      ((pllRun (SoftwarePLL.new 8 false) [true]).ramp_len ≤
          (pllRun (SoftwarePLL.new 8 false) [true]).rampAfter x →
        ((pllRun (SoftwarePLL.new 8 false) [true]).update x).ramp =
          (pllRun (SoftwarePLL.new 8 false) [true]).rampAfter x -
            (pllRun (SoftwarePLL.new 8 false) [true]).ramp_len) ∧
      ((pllRun (SoftwarePLL.new 8 false) [true]).rampAfter x <
          (pllRun (SoftwarePLL.new 8 false) [true]).ramp_len →
        ((pllRun (SoftwarePLL.new 8 false) [true]).update x).ramp =
          (pllRun (SoftwarePLL.new 8 false) [true]).rampAfter x)) :=
  c8_ramp_invariant 8 false (by decide) (by decide) [true]

/-! ## Length-guard abort (claim C6) -/

/-- Claim C6: if the PLL is active, completes its first 12-bit symbol pair
of a packet (`buf_len = 0`, bit boundary crossed, `bit_count` reaching 12),
and the decoded count byte is below 7 or above `MAX_PAYLOAD = 67`, then the
PLL aborts: `active` is cleared, its bad-packet counter increments, the
byte is not appended (`buf` and `buf_len` unchanged) and `full` stays
false; consequently a driver tick in `Rx` mode running this update performs
no validation, so `rx_good`, `rx_bad` and `rx_buf_valid` are unchanged. -/
theorem c6_bad_length_aborts (d : AskDriver) (x : Bool)
    (hmode : d.mode = AskMode.Rx)
    (hact : d.pll.active = true)
    (hfull : d.pll.full = false)
    (hbl : d.pll.buf_len = 0)
    (hramp : d.pll.ramp_len ≤ d.pll.rampAfter x)
    (hbc : 12 ≤ (d.pll.bit_count + 1) % 256)
    (hbyte : d.pll.byteAfter x < 7 ∨ 67 < d.pll.byteAfter x) :
    (d.pll.update x).active = false ∧
    (d.pll.update x).bad = (d.pll.bad + 1) % 65536 ∧
    (d.pll.update x).buf = d.pll.buf ∧
    (d.pll.update x).buf_len = d.pll.buf_len ∧
    (d.pll.update x).full = false ∧
    (d.tick x).pll = d.pll.update x ∧
    (d.tick x).rx_good = d.rx_good ∧
    (d.tick x).rx_bad = d.rx_bad ∧
    (d.tick x).rx_buf_valid = d.rx_buf_valid := by
  have hu : d.pll.update x =
      { d.pll with bits := d.pll.bitsAfter x,
                   ramp := d.pll.rampAfter x - d.pll.ramp_len,
                   integrator := 0, last_sample := d.pll.sampleOf x,
                   bit_count := (d.pll.bit_count + 1) % 256,
                   count := d.pll.byteAfter x, active := false,
                   bad := (d.pll.bad + 1) % 65536 } := by
    rw [SoftwarePLL.update]
    rw [if_pos hramp, if_pos hact, if_pos hbc, if_pos ⟨hbl, hbyte⟩]
  have hfull2 : (d.pll.update x).full = false := by rw [hu]; exact hfull
  have hact2 : (d.pll.update x).active = false := by rw [hu]
  have ht : d.tick x = { d with pll := d.pll.update x } := by
    rw [AskDriver.tick, if_pos hmode]
    dsimp only
    rw [if_neg]
    simp [hfull2]
  refine ⟨hact2, by rw [hu], by rw [hu], by rw [hu, hbl], hfull2, ?_, ?_, ?_, ?_⟩ <;>
    rw [ht]

/-- Witness for C6: a locked PLL one bit short of its first symbol pair,
whose 12-bit window decodes to the byte 0 after the boundary. -/
theorem c6_bad_length_aborts_witness :
    (({ AskDriver.new 8 false false false with
          mode := AskMode.Rx,
          pll := ⟨0x69a, 140, 0, false, 11, 160, 20, 11, 29,
                  false, true, 0, 0, 0, false, []⟩ } : AskDriver).pll.update
        false).active = false ∧
    (({ AskDriver.new 8 false false false with
          mode := AskMode.Rx,
          pll := ⟨0x69a, 140, 0, false, 11, 160, 20, 11, 29,
                  false, true, 0, 0, 0, false, []⟩ } : AskDriver).pll.update
        false).bad =
      (({ AskDriver.new 8 false false false with
            mode := AskMode.Rx,
            pll := ⟨0x69a, 140, 0, false, 11, 160, 20, 11, 29,
                    false, true, 0, 0, 0, false, []⟩ } : AskDriver).pll.bad + 1) %
        65536 ∧
    (({ AskDriver.new 8 false false false with
          mode := AskMode.Rx,
          pll := ⟨0x69a, 140, 0, false, 11, 160, 20, 11, 29,
                  false, true, 0, 0, 0, false, []⟩ } : AskDriver).pll.update
        false).buf =
      ({ AskDriver.new 8 false false false with
           mode := AskMode.Rx,
           pll := ⟨0x69a, 140, 0, false, 11, 160, 20, 11, 29,
                   false, true, 0, 0, 0, false, []⟩ } : AskDriver).pll.buf ∧
    (({ AskDriver.new 8 false false false with
          mode := AskMode.Rx,
          pll := ⟨0x69a, 140, 0, false, 11, 160, 20, 11, 29,
                  false, true, 0, 0, 0, false, []⟩ } : AskDriver).pll.update
        false).buf_len =
      ({ AskDriver.new 8 false false false with
           mode := AskMode.Rx,
           pll := ⟨0x69a, 140, 0, false, 11, 160, 20, 11, 29,
                   false, true, 0, 0, 0, false, []⟩ } : AskDriver).pll.buf_len ∧
    (({ AskDriver.new 8 false false false with
          mode := AskMode.Rx,
          pll := ⟨0x69a, 140, 0, false, 11, 160, 20, 11, 29,
                  false, true, 0, 0, 0, false, []⟩ } : AskDriver).pll.update
        false).full = false ∧
    (({ AskDriver.new 8 false false false with
          mode := AskMode.Rx,
          pll := ⟨0x69a, 140, 0, false, 11, 160, 20, 11, 29,
                  false, true, 0, 0, 0, false, []⟩ } : AskDriver).tick false).pll =
      ({ AskDriver.new 8 false false false with
           mode := AskMode.Rx,
           pll := ⟨0x69a, 140, 0, false, 11, 160, 20, 11, 29,
                   false, true, 0, 0, 0, false, []⟩ } : AskDriver).pll.update false ∧
    (({ AskDriver.new 8 false false false with
          mode := AskMode.Rx,
          pll := ⟨0x69a, 140, 0, false, 11, 160, 20, 11, 29,
                  false, true, 0, 0, 0, false, []⟩ } : AskDriver).tick false).rx_good =
      ({ AskDriver.new 8 false false false with
           mode := AskMode.Rx,
           pll := ⟨0x69a, 140, 0, false, 11, 160, 20, 11, 29,
                   false, true, 0, 0, 0, false, []⟩ } : AskDriver).rx_good ∧
    (({ AskDriver.new 8 false false false with
          mode := AskMode.Rx,
          pll := ⟨0x69a, 140, 0, false, 11, 160, 20, 11, 29,
                  false, true, 0, 0, 0, false, []⟩ } : AskDriver).tick false).rx_bad =
      ({ AskDriver.new 8 false false false with
           mode := AskMode.Rx,
           pll := ⟨0x69a, 140, 0, false, 11, 160, 20, 11, 29,
                   false, true, 0, 0, 0, false, []⟩ } : AskDriver).rx_bad ∧
    (({ AskDriver.new 8 false false false with
          mode := AskMode.Rx,
          pll := ⟨0x69a, 140, 0, false, 11, 160, 20, 11, 29,
                  false, true, 0, 0, 0, false, []⟩ } : AskDriver).tick
        false).rx_buf_valid =
      ({ AskDriver.new 8 false false false with
           mode := AskMode.Rx,
           pll := ⟨0x69a, 140, 0, false, 11, 160, 20, 11, 29,
                   false, true, 0, 0, 0, false, []⟩ } : AskDriver).rx_buf_valid :=
  c6_bad_length_aborts
    { AskDriver.new 8 false false false with
        mode := AskMode.Rx,
        pll := ⟨0x69a, 140, 0, false, 11, 160, 20, 11, 29,
                false, true, 0, 0, 0, false, []⟩ }
    false rfl rfl rfl rfl (by decide) (by decide) (by decide)

/-! ## Repeated validation of an unconsumed packet (claim C9) -/

theorem set_mode_rx_pll (d : AskDriver) : d.set_mode_rx.pll = d.pll := by
  rw [AskDriver.set_mode_rx]
  split
  · rw [AskDriver.write_ptt]
    dsimp only
    split <;> rfl
  · rfl

theorem set_mode_rx_fields (d : AskDriver) :
    d.set_mode_rx.rx_buf_valid = d.rx_buf_valid ∧
    d.set_mode_rx.rx_good = d.rx_good ∧ d.set_mode_rx.rx_bad = d.rx_bad ∧
    d.set_mode_rx.promiscuous = d.promiscuous ∧
    d.set_mode_rx.this_address = d.this_address := by
  rw [AskDriver.set_mode_rx]
  split
  · rw [AskDriver.write_ptt]
    dsimp only
    split <;> exact ⟨rfl, rfl, rfl, rfl, rfl⟩
  · exact ⟨rfl, rfl, rfl, rfl, rfl⟩

/-- Claim C9: a tick in `Rx` mode whose PLL update ends with `full` set and
`active` clear re-runs `validate_rx_buf` without clearing `pll.full`, so the
same completed packet bumps `rx_bad` (CRC failure) or `rx_good`
(acceptance) again on every such tick; only `availabile()` clears the
`full` flag. -/
theorem c9_tick_revalidates_until_available (d : AskDriver) (x : Bool)
    (hmode : d.mode = AskMode.Rx)
    (hfull : (d.pll.update x).full = true)
    (hact : (d.pll.update x).active = false) :
    (d.tick x).pll.full = true ∧
    (crcFold (d.pll.update x).buf ≠ 0xf0b8 →
      (d.tick x).rx_bad = (d.rx_bad + 1) % 65536 ∧
      (d.tick x).rx_good = d.rx_good ∧ (d.tick x).rx_buf_valid = false) ∧
    (crcFold (d.pll.update x).buf = 0xf0b8 →
      (d.promiscuous ∨ (d.pll.update x).buf.getD 1 0 = d.this_address ∨
        (d.pll.update x).buf.getD 1 0 = 255) →
      (d.tick x).rx_good = (d.rx_good + 1) % 65536 ∧
      (d.tick x).rx_buf_valid = true ∧ (d.tick x).rx_bad = d.rx_bad) ∧
    (∀ e : AskDriver, e.mode ≠ AskMode.Tx → e.pll.full = true →
      e.availabile.1.pll.full = false) := by
  have ht : d.tick x = AskDriver.validate_rx_buf { d with pll := d.pll.update x } := by
    rw [AskDriver.tick, if_pos hmode]
    dsimp only
    rw [if_pos]
    simp [hfull, hact]
  refine ⟨?_, ?_, ?_, ?_⟩
  · rw [ht, AskDriver.validate_rx_buf]
    split
    · exact hfull
    · dsimp only
      split
      · exact hfull
      · exact hfull
  · intro hcrc
    rw [ht, AskDriver.validate_rx_buf]
    rw [if_pos (by simpa [crcFold] using hcrc)]
    exact ⟨rfl, rfl, rfl⟩
  · intro hcrc haddr
    rw [ht, AskDriver.validate_rx_buf]
    rw [if_neg (by simpa [crcFold] using hcrc)]
    dsimp only
    rw [if_pos (by simpa using haddr)]
    exact ⟨rfl, rfl, rfl⟩
  · intro e hemode hefull
    rw [AskDriver.availabile, if_neg hemode]
    dsimp only
    rw [if_pos (by rw [set_mode_rx_pll]; exact hefull)]

/-- Witness for C9: an `Rx`-mode driver whose PLL already holds a completed
(empty, hence CRC-failing) packet; a quiet tick re-validates and bumps
`rx_bad`, and `availabile` clears the flag. -/
theorem c9_tick_revalidates_until_available_witness :
    (({ AskDriver.new 8 false false false with
          mode := AskMode.Rx,
          pll := ⟨0, 0, 0, false, 0, 160, 20, 11, 29,
                  false, false, 7, 7, 0, true, []⟩ } : AskDriver).tick
        false).pll.full = true ∧
    (crcFold (({ AskDriver.new 8 false false false with
          mode := AskMode.Rx,
          pll := ⟨0, 0, 0, false, 0, 160, 20, 11, 29,
                  false, false, 7, 7, 0, true, []⟩ } : AskDriver).pll.update
        false).buf ≠ 0xf0b8 →
      (({ AskDriver.new 8 false false false with
            mode := AskMode.Rx,
            pll := ⟨0, 0, 0, false, 0, 160, 20, 11, 29,
                    false, false, 7, 7, 0, true, []⟩ } : AskDriver).tick
          false).rx_bad =
        (({ AskDriver.new 8 false false false with
              mode := AskMode.Rx,
              pll := ⟨0, 0, 0, false, 0, 160, 20, 11, 29,
                      false, false, 7, 7, 0, true, []⟩ } : AskDriver).rx_bad + 1) %
          65536 ∧
      (({ AskDriver.new 8 false false false with
            mode := AskMode.Rx,
            pll := ⟨0, 0, 0, false, 0, 160, 20, 11, 29,
                    false, false, 7, 7, 0, true, []⟩ } : AskDriver).tick
          false).rx_good =
        ({ AskDriver.new 8 false false false with
             mode := AskMode.Rx,
             pll := ⟨0, 0, 0, false, 0, 160, 20, 11, 29,
                     false, false, 7, 7, 0, true, []⟩ } : AskDriver).rx_good ∧
      (({ AskDriver.new 8 false false false with
            mode := AskMode.Rx,
            pll := ⟨0, 0, 0, false, 0, 160, 20, 11, 29,
                    false, false, 7, 7, 0, true, []⟩ } : AskDriver).tick
          false).rx_buf_valid = false) ∧
    (∀ e : AskDriver, e.mode ≠ AskMode.Tx → e.pll.full = true →
      e.availabile.1.pll.full = false) := by
  have h := c9_tick_revalidates_until_available
    { AskDriver.new 8 false false false with
        mode := AskMode.Rx,
        pll := ⟨0, 0, 0, false, 0, 160, 20, 11, 29,
                false, false, 7, 7, 0, true, []⟩ }
    false rfl (by decide) (by decide)
  exact ⟨h.1, h.2.1, h.2.2.2⟩

/-! ## Transmit bit timing (claim C7) -/

set_option maxRecDepth 4000 in
/-- The two Rust spellings of bit selection agree on bytes: testing
`tx_buf[i] & (1 << tx_bit)` against zero equals `(tx_buf[i] >> tx_bit) & 1`. -/
theorem bit_select : ∀ b, b < 6 → ∀ v, v < 256 →
    ((v &&& (1 <<< b) != 0) = ((v >>> b) &&& 1 == 1)) := by
  decide

/-- Claim C7: in `Tx` mode a tick that does not complete a bit period only
advances the tick counter (no pin write); the tick that completes it emits
exactly one bit, whose level is `(tx_buf[tx_index] >> tx_bit) & 1`,
LSB-first, with `tx_index` advancing after 6 bits; and once
`tx_index` has reached `tx_buf_len`, the completing tick increments
`tx_good` exactly once and returns the driver to `Idle`. -/
theorem c7_tx_bit_timing (d : AskDriver) (x : Bool)
    (hmode : d.mode = AskMode.Tx)
    (hT255 : d.ticks_per_bit ≤ 255)
    (hc : d.tick_counter < d.ticks_per_bit)
    (hbit : d.tx_bit < 6)
    (hbl255 : d.tx_buf_len ≤ 255)
    (hbyte : ∀ i, i < d.tx_buf.length → d.tx_buf.getD i 0 < 256) :
    (d.tick_counter + 1 < d.ticks_per_bit →
      d.tick x = { d with tick_counter := d.tick_counter + 1 }) ∧
    (d.tick_counter + 1 = d.ticks_per_bit →
      (d.tx_index < d.tx_buf_len →
        (d.tick x).txTrace =
          d.txTrace ++ [(d.tx_buf.getD d.tx_index 0 >>> d.tx_bit) &&& 1 == 1] ∧
        (d.tick x).tx_good = d.tx_good ∧
        (d.tick x).mode = AskMode.Tx ∧
        (d.tick x).tick_counter = 0 ∧
        (d.tx_bit + 1 < 6 →
          (d.tick x).tx_bit = d.tx_bit + 1 ∧ (d.tick x).tx_index = d.tx_index) ∧
        (d.tx_bit + 1 = 6 →
          (d.tick x).tx_bit = 0 ∧ (d.tick x).tx_index = d.tx_index + 1)) ∧
      (d.tx_buf_len ≤ d.tx_index →
        (d.tick x).tx_good = (d.tx_good + 1) % 65536 ∧
        (d.tick x).mode = AskMode.Idle ∧
        (d.tick x).txTrace = d.txTrace ++ [false] ∧
        (d.tick x).txPin = false)) := by
  have hmodc : (d.tick_counter + 1) % 256 = d.tick_counter + 1 :=
    Nat.mod_eq_of_lt (by omega)
  have htickop : d.tick x =
      (if d.ticks_per_bit ≤ d.tick_counter + 1 then
        ({ d with tick_counter := 0 }).transmit_bit
      else { d with tick_counter := d.tick_counter + 1 }) := by
    rw [AskDriver.tick, if_neg (by simp [hmode]), if_pos hmode]
    dsimp only
    rw [hmodc]
  constructor
  · intro hlt
    rw [htickop, if_neg (by omega)]
  · intro heq
    have hp : d.tick x = ({ d with tick_counter := 0 }).transmit_bit := by
      rw [htickop, if_pos (by omega)]
    constructor
    · intro hidx
      have hmodb : (d.tx_bit + 1) % 256 = d.tx_bit + 1 := Nat.mod_eq_of_lt (by omega)
      have hv : d.tx_buf.getD d.tx_index 0 < 256 := by
        by_cases hil : d.tx_index < d.tx_buf.length
        · exact hbyte d.tx_index hil
        · rw [List.getD_eq_default _ _ (by omega)]
          norm_num
      have hbsel := bit_select d.tx_bit hbit (d.tx_buf.getD d.tx_index 0) hv
      rw [hp, AskDriver.transmit_bit,
        if_neg (show ¬ d.tx_buf_len ≤ d.tx_index by omega)]
      dsimp only [AskDriver.write_tx]
      rw [hmodb]
      by_cases h6 : 6 ≤ d.tx_bit + 1
      · rw [if_pos h6]
        have hmodi : (d.tx_index + 1) % 256 = d.tx_index + 1 :=
          Nat.mod_eq_of_lt (by omega)
        refine ⟨by rw [hbsel], rfl, hmode, rfl, by omega, fun _ => ⟨rfl, by rw [hmodi]⟩⟩
      · rw [if_neg h6]
        exact ⟨by rw [hbsel], rfl, hmode, rfl, fun _ => ⟨rfl, rfl⟩, by omega⟩
    · intro hend
      rw [hp, AskDriver.transmit_bit,
        if_pos (show d.tx_buf_len ≤ d.tx_index from hend)]
      rw [AskDriver.set_mode_idle, if_pos (by simp [hmode])]
      dsimp only [AskDriver.write_ptt, AskDriver.write_tx]
      split <;> exact ⟨rfl, rfl, rfl, rfl⟩

/-- Witness for C7: a `Tx`-mode driver one tick short of a bit period, with
a one-symbol buffer. -/
theorem c7_tx_bit_timing_witness :
    (({ AskDriver.new 2 false false false with
          mode := AskMode.Tx, tick_counter := 0, tx_buf := [0x0d, 0x1c],
          tx_buf_len := 2, tx_index := 0, tx_bit := 0 } : AskDriver).tick_counter +
        1 < ({ AskDriver.new 2 false false false with
          mode := AskMode.Tx, tick_counter := 0, tx_buf := [0x0d, 0x1c],
          tx_buf_len := 2, tx_index := 0, tx_bit := 0 } : AskDriver).ticks_per_bit →
      ({ AskDriver.new 2 false false false with
          mode := AskMode.Tx, tick_counter := 0, tx_buf := [0x0d, 0x1c],
          tx_buf_len := 2, tx_index := 0, tx_bit := 0 } : AskDriver).tick false =
        { ({ AskDriver.new 2 false false false with
          mode := AskMode.Tx, tick_counter := 0, tx_buf := [0x0d, 0x1c],
          tx_buf_len := 2, tx_index := 0, tx_bit := 0 } : AskDriver) with
            tick_counter := ({ AskDriver.new 2 false false false with
          mode := AskMode.Tx, tick_counter := 0, tx_buf := [0x0d, 0x1c],
          tx_buf_len := 2, tx_index := 0, tx_bit := 0 } : AskDriver).tick_counter +
              1 }) ∧
    (({ AskDriver.new 2 false false false with
          mode := AskMode.Tx, tick_counter := 0, tx_buf := [0x0d, 0x1c],
          tx_buf_len := 2, tx_index := 0, tx_bit := 0 } : AskDriver).tick_counter +
        1 = ({ AskDriver.new 2 false false false with
          mode := AskMode.Tx, tick_counter := 0, tx_buf := [0x0d, 0x1c],
          tx_buf_len := 2, tx_index := 0, tx_bit := 0 } : AskDriver).ticks_per_bit →
      (({ AskDriver.new 2 false false false with
          mode := AskMode.Tx, tick_counter := 0, tx_buf := [0x0d, 0x1c],
          tx_buf_len := 2, tx_index := 0, tx_bit := 0 } : AskDriver).tx_index <
          ({ AskDriver.new 2 false false false with
          mode := AskMode.Tx, tick_counter := 0, tx_buf := [0x0d, 0x1c],
          tx_buf_len := 2, tx_index := 0, tx_bit := 0 } : AskDriver).tx_buf_len →
        (({ AskDriver.new 2 false false false with
          mode := AskMode.Tx, tick_counter := 0, tx_buf := [0x0d, 0x1c],
          tx_buf_len := 2, tx_index := 0, tx_bit := 0 } : AskDriver).tick
            false).txTrace =
          ({ AskDriver.new 2 false false false with
          mode := AskMode.Tx, tick_counter := 0, tx_buf := [0x0d, 0x1c],
          tx_buf_len := 2, tx_index := 0, tx_bit := 0 } : AskDriver).txTrace ++
            [(({ AskDriver.new 2 false false false with
          mode := AskMode.Tx, tick_counter := 0, tx_buf := [0x0d, 0x1c],
          tx_buf_len := 2, tx_index := 0, tx_bit := 0 } : AskDriver).tx_buf.getD
                (({ AskDriver.new 2 false false false with
          mode := AskMode.Tx, tick_counter := 0, tx_buf := [0x0d, 0x1c],
          tx_buf_len := 2, tx_index := 0, tx_bit := 0 } : AskDriver).tx_index) 0 >>>
                ({ AskDriver.new 2 false false false with
          mode := AskMode.Tx, tick_counter := 0, tx_buf := [0x0d, 0x1c],
          tx_buf_len := 2, tx_index := 0, tx_bit := 0 } : AskDriver).tx_bit) &&&
                1 == 1] ∧
        (({ AskDriver.new 2 false false false with
          mode := AskMode.Tx, tick_counter := 0, tx_buf := [0x0d, 0x1c],
          tx_buf_len := 2, tx_index := 0, tx_bit := 0 } : AskDriver).tick
            false).tx_good =
          ({ AskDriver.new 2 false false false with
          mode := AskMode.Tx, tick_counter := 0, tx_buf := [0x0d, 0x1c],
          tx_buf_len := 2, tx_index := 0, tx_bit := 0 } : AskDriver).tx_good ∧
        (({ AskDriver.new 2 false false false with
          mode := AskMode.Tx, tick_counter := 0, tx_buf := [0x0d, 0x1c],
          tx_buf_len := 2, tx_index := 0, tx_bit := 0 } : AskDriver).tick
            false).mode = AskMode.Tx ∧
        (({ AskDriver.new 2 false false false with
          mode := AskMode.Tx, tick_counter := 0, tx_buf := [0x0d, 0x1c],
          tx_buf_len := 2, tx_index := 0, tx_bit := 0 } : AskDriver).tick
            false).tick_counter = 0 ∧
        (({ AskDriver.new 2 false false false with
          mode := AskMode.Tx, tick_counter := 0, tx_buf := [0x0d, 0x1c],
          tx_buf_len := 2, tx_index := 0, tx_bit := 0 } : AskDriver).tx_bit + 1 < 6 →
          (({ AskDriver.new 2 false false false with
          mode := AskMode.Tx, tick_counter := 0, tx_buf := [0x0d, 0x1c],
          tx_buf_len := 2, tx_index := 0, tx_bit := 0 } : AskDriver).tick
              false).tx_bit =
            ({ AskDriver.new 2 false false false with
          mode := AskMode.Tx, tick_counter := 0, tx_buf := [0x0d, 0x1c],
          tx_buf_len := 2, tx_index := 0, tx_bit := 0 } : AskDriver).tx_bit + 1 ∧
          (({ AskDriver.new 2 false false false with
          mode := AskMode.Tx, tick_counter := 0, tx_buf := [0x0d, 0x1c],
          tx_buf_len := 2, tx_index := 0, tx_bit := 0 } : AskDriver).tick
              false).tx_index =
            ({ AskDriver.new 2 false false false with
          mode := AskMode.Tx, tick_counter := 0, tx_buf := [0x0d, 0x1c],
          tx_buf_len := 2, tx_index := 0, tx_bit := 0 } : AskDriver).tx_index) ∧
        (({ AskDriver.new 2 false false false with
          mode := AskMode.Tx, tick_counter := 0, tx_buf := [0x0d, 0x1c],
          tx_buf_len := 2, tx_index := 0, tx_bit := 0 } : AskDriver).tx_bit + 1 = 6 →
          (({ AskDriver.new 2 false false false with
          mode := AskMode.Tx, tick_counter := 0, tx_buf := [0x0d, 0x1c],
          tx_buf_len := 2, tx_index := 0, tx_bit := 0 } : AskDriver).tick
              false).tx_bit = 0 ∧
          (({ AskDriver.new 2 false false false with
          mode := AskMode.Tx, tick_counter := 0, tx_buf := [0x0d, 0x1c],
          tx_buf_len := 2, tx_index := 0, tx_bit := 0 } : AskDriver).tick
              false).tx_index =
            ({ AskDriver.new 2 false false false with
          mode := AskMode.Tx, tick_counter := 0, tx_buf := [0x0d, 0x1c],
          tx_buf_len := 2, tx_index := 0, tx_bit := 0 } : AskDriver).tx_index + 1)) ∧
      (({ AskDriver.new 2 false false false with
          mode := AskMode.Tx, tick_counter := 0, tx_buf := [0x0d, 0x1c],
          tx_buf_len := 2, tx_index := 0, tx_bit := 0 } : AskDriver).tx_buf_len ≤
          ({ AskDriver.new 2 false false false with
          mode := AskMode.Tx, tick_counter := 0, tx_buf := [0x0d, 0x1c],
          tx_buf_len := 2, tx_index := 0, tx_bit := 0 } : AskDriver).tx_index →
        (({ AskDriver.new 2 false false false with
          mode := AskMode.Tx, tick_counter := 0, tx_buf := [0x0d, 0x1c],
          tx_buf_len := 2, tx_index := 0, tx_bit := 0 } : AskDriver).tick
            false).tx_good =
          (({ AskDriver.new 2 false false false with
          mode := AskMode.Tx, tick_counter := 0, tx_buf := [0x0d, 0x1c],
          tx_buf_len := 2, tx_index := 0, tx_bit := 0 } : AskDriver).tx_good + 1) %
            65536 ∧
        (({ AskDriver.new 2 false false false with
          mode := AskMode.Tx, tick_counter := 0, tx_buf := [0x0d, 0x1c],
          tx_buf_len := 2, tx_index := 0, tx_bit := 0 } : AskDriver).tick
            false).mode = AskMode.Idle ∧
        (({ AskDriver.new 2 false false false with
          mode := AskMode.Tx, tick_counter := 0, tx_buf := [0x0d, 0x1c],
          tx_buf_len := 2, tx_index := 0, tx_bit := 0 } : AskDriver).tick
            false).txTrace =
          ({ AskDriver.new 2 false false false with
          mode := AskMode.Tx, tick_counter := 0, tx_buf := [0x0d, 0x1c],
          tx_buf_len := 2, tx_index := 0, tx_bit := 0 } : AskDriver).txTrace ++
            [false] ∧
        (({ AskDriver.new 2 false false false with
          mode := AskMode.Tx, tick_counter := 0, tx_buf := [0x0d, 0x1c],
          tx_buf_len := 2, tx_index := 0, tx_bit := 0 } : AskDriver).tick
            false).txPin = false)) :=
  c7_tx_bit_timing
    { AskDriver.new 2 false false false with
        mode := AskMode.Tx, tick_counter := 0, tx_buf := [0x0d, 0x1c],
        tx_buf_len := 2, tx_index := 0, tx_bit := 0 }
    false rfl (by decide) (by decide) (by decide) (by decide) (by decide)

/-! ## Receive buffer bounds (claim C10) -/

theorem pllSane_new (t : Nat) (inv : Bool) : PllSane (SoftwarePLL.new t inv) := by
  refine ⟨?_, ?_, ?_⟩
  · intro hca
    simp [SoftwarePLL.new] at hca
  · simp [SoftwarePLL.new]
  · simp [SoftwarePLL.new]

theorem pllSane_update (s : SoftwarePLL) (x : Bool) (h : PllSane s) :
    PllSane (s.update x) := by
  obtain ⟨p1, p2, p3⟩ := h
  rw [SoftwarePLL.update]
  by_cases hb : s.ramp_len ≤ s.rampAfter x
  case neg =>
    rw [if_neg hb]
    exact ⟨p1, p2, p3⟩
  rw [if_pos hb]
  dsimp only
  by_cases hact : s.active = true
  case neg =>
    rw [if_neg hact]
    by_cases hst : s.bitsAfter x = 0xb38
    · rw [if_pos hst]
      refine ⟨?_, ?_, ?_⟩ <;> dsimp only
      · intro _ h1
        omega
      · exact Nat.zero_le _
      · omega
    · rw [if_neg hst]
      exact ⟨p1, p2, p3⟩
  rw [if_pos hact]
  by_cases hbc : 12 ≤ (s.bit_count + 1) % 256
  case neg =>
    rw [if_neg hbc]
    exact ⟨p1, p2, p3⟩
  rw [if_pos hbc]
  by_cases habort : s.buf_len = 0 ∧ (s.byteAfter x < 7 ∨ 67 < s.byteAfter x)
  case pos =>
    rw [if_pos habort]
    refine ⟨?_, p2, p3⟩
    intro hca
    simp at hca
  rw [if_neg habort]
  have hm1 : (s.buf_len + 1) % 256 = s.buf_len + 1 := Nat.mod_eq_of_lt (by omega)
  have hcnt : 7 ≤ (if s.buf_len = 0 then s.byteAfter x else s.count) ∧
      (if s.buf_len = 0 then s.byteAfter x else s.count) ≤ 67 ∧
      (s.buf_len = 0 ∨ s.buf_len < (if s.buf_len = 0 then s.byteAfter x else s.count)) := by
    by_cases hbl0 : s.buf_len = 0
    · rw [if_pos hbl0]
      push_neg at habort
      have := habort hbl0
      exact ⟨by omega, by omega, Or.inl hbl0⟩
    · rw [if_neg hbl0]
      have := p1 hact (by omega)
      exact ⟨this.1, this.2.1, Or.inr this.2.2⟩
  have h21 := hcnt.2.1
  have h22 := hcnt.2.2
  by_cases hfl : (if s.buf_len = 0 then s.byteAfter x else s.count) ≤ (s.buf_len + 1) % 256
  case pos =>
    rw [if_pos hfl]
    refine ⟨?_, ?_, ?_⟩
    · intro hca
      simp at hca
    · dsimp only
      simp only [List.length_append, List.length_cons, List.length_nil]
      omega
    · dsimp only
      rw [hm1]
      omega
  rw [if_neg hfl]
  rw [hm1] at hfl
  refine ⟨?_, ?_, ?_⟩
  · intro _ _
    dsimp only
    rw [hm1]
    exact ⟨hcnt.1, hcnt.2.1, by omega⟩
  · dsimp only
    simp only [List.length_append, List.length_cons, List.length_nil]
    omega
  · dsimp only
    rw [hm1]
    omega

theorem pllSane_run (samples : List Bool) :
    ∀ s, PllSane s → PllSane (pllRun s samples) := by
  induction samples with
  | nil => intro s h; simpa [pllRun] using h
  | cons x xs ih =>
    intro s h
    exact ih (s.update x) (pllSane_update s x h)

/-- The moment an `update` call raises `full`, the just-completed packet has
at least 7 bytes and the logical length is covered by the byte buffer. -/
theorem update_full_transition (s : SoftwarePLL) (x : Bool) (hs : PllSane s)
    (h0 : s.full = false) (h1 : (s.update x).full = true) :
    7 ≤ (s.update x).buf_len ∧ (s.update x).buf_len ≤ 67 ∧
    (s.update x).buf_len ≤ (s.update x).buf.length := by
  obtain ⟨p1, p2, p3⟩ := hs
  rw [SoftwarePLL.update] at h1 ⊢
  by_cases hb : s.ramp_len ≤ s.rampAfter x
  case neg =>
    rw [if_neg hb] at h1
    simp [h0] at h1
  rw [if_pos hb] at h1 ⊢
  dsimp only at h1 ⊢
  by_cases hact : s.active = true
  case neg =>
    rw [if_neg hact] at h1
    by_cases hst : s.bitsAfter x = 0xb38
    · rw [if_pos hst] at h1
      simp [h0] at h1
    · rw [if_neg hst] at h1
      simp [h0] at h1
  rw [if_pos hact] at h1 ⊢
  by_cases hbc : 12 ≤ (s.bit_count + 1) % 256
  case neg =>
    rw [if_neg hbc] at h1
    simp [h0] at h1
  rw [if_pos hbc] at h1 ⊢
  by_cases habort : s.buf_len = 0 ∧ (s.byteAfter x < 7 ∨ 67 < s.byteAfter x)
  case pos =>
    rw [if_pos habort] at h1
    simp [h0] at h1
  rw [if_neg habort] at h1 ⊢
  have hm1 : (s.buf_len + 1) % 256 = s.buf_len + 1 := Nat.mod_eq_of_lt (by omega)
  have hcnt : 7 ≤ (if s.buf_len = 0 then s.byteAfter x else s.count) := by
    by_cases hbl0 : s.buf_len = 0
    · rw [if_pos hbl0]
      push_neg at habort
      have := habort hbl0
      omega
    · rw [if_neg hbl0]
      exact (p1 hact (by omega)).1
  by_cases hfl : (if s.buf_len = 0 then s.byteAfter x else s.count) ≤ (s.buf_len + 1) % 256
  case neg =>
    rw [if_neg hfl] at h1
    simp [h0] at h1
  rw [if_pos hfl]
  dsimp only
  rw [hm1] at hfl ⊢
  have hle67 : s.buf_len + 1 ≤ 67 := by
    by_cases hbl0 : s.buf_len = 0
    · omega
    · have := p1 hact (by omega)
      omega
  refine ⟨by omega, by omega, ?_⟩
  simp only [List.length_append, List.length_cons, List.length_nil]
  omega

/-- Claim C10: whenever a PLL update sets `full`, the receive buffer holds
at least `buf_len ≥ 7` bytes; under that precondition the header reads at
indices 1 to 4 in `validate_rx_buf` and the payload slice
`[HEADER_LEN + 1 .. buf_len - 2]` taken by `receive` (whose wrapping-`u8`
length `(buf_len + 254) % 256` equals `buf_len - 2`) are in bounds, so
neither access can panic. -/
theorem c10_full_packet_bounds (t : Nat) (inv : Bool) (samples : List Bool)
    (x : Bool) (_ht : 1 ≤ t)
    (h0 : (pllRun (SoftwarePLL.new t inv) samples).full = false)
    (h1 : ((pllRun (SoftwarePLL.new t inv) samples).update x).full = true) :
    7 ≤ ((pllRun (SoftwarePLL.new t inv) samples).update x).buf_len ∧
    ((pllRun (SoftwarePLL.new t inv) samples).update x).buf_len ≤
      ((pllRun (SoftwarePLL.new t inv) samples).update x).buf.length ∧
    7 ≤ ((pllRun (SoftwarePLL.new t inv) samples).update x).buf.length ∧
    4 < ((pllRun (SoftwarePLL.new t inv) samples).update x).buf.length ∧
    (((pllRun (SoftwarePLL.new t inv) samples).update x).buf_len + 254) % 256 =
      ((pllRun (SoftwarePLL.new t inv) samples).update x).buf_len - 2 ∧
    5 ≤ ((pllRun (SoftwarePLL.new t inv) samples).update x).buf_len - 2 ∧
    ((pllRun (SoftwarePLL.new t inv) samples).update x).buf_len - 2 ≤
      ((pllRun (SoftwarePLL.new t inv) samples).update x).buf.length := by
  have hs : PllSane (pllRun (SoftwarePLL.new t inv) samples) :=
    pllSane_run samples _ (pllSane_new t inv)
  obtain ⟨h7, h67, hlen⟩ := update_full_transition _ x hs h0 h1
  have hsu : PllSane ((pllRun (SoftwarePLL.new t inv) samples).update x) :=
    pllSane_update _ x hs
  refine ⟨h7, hlen, by omega, by omega, ?_, by omega, by omega⟩
  have : ((pllRun (SoftwarePLL.new t inv) samples).update x).buf_len + 254 =
      (((pllRun (SoftwarePLL.new t inv) samples).update x).buf_len - 2) + 256 := by
    omega
  rw [this, Nat.add_mod_right]
  exact Nat.mod_eq_of_lt (by omega)

/-- Witness for C10: the first packet of the concrete on-air stream; its
completing sample is the first sample after the packet's 1056. -/
theorem c10_full_packet_bounds_witness :
    7 ≤ ((pllRun (SoftwarePLL.new 8 false) (airSamples 8 packet1)).update
        false).buf_len ∧
    ((pllRun (SoftwarePLL.new 8 false) (airSamples 8 packet1)).update
        false).buf_len ≤
      ((pllRun (SoftwarePLL.new 8 false) (airSamples 8 packet1)).update
        false).buf.length ∧
    7 ≤ ((pllRun (SoftwarePLL.new 8 false) (airSamples 8 packet1)).update
        false).buf.length ∧
    4 < ((pllRun (SoftwarePLL.new 8 false) (airSamples 8 packet1)).update
        false).buf.length ∧
    (((pllRun (SoftwarePLL.new 8 false) (airSamples 8 packet1)).update
        false).buf_len + 254) % 256 =
      ((pllRun (SoftwarePLL.new 8 false) (airSamples 8 packet1)).update
        false).buf_len - 2 ∧
    5 ≤ ((pllRun (SoftwarePLL.new 8 false) (airSamples 8 packet1)).update
        false).buf_len - 2 ∧
    ((pllRun (SoftwarePLL.new 8 false) (airSamples 8 packet1)).update
        false).buf_len - 2 ≤
      ((pllRun (SoftwarePLL.new 8 false) (airSamples 8 packet1)).update
        false).buf.length :=
  c10_full_packet_bounds 8 false (airSamples 8 packet1) false (by decide)
    (by rw [pllPhase1]) (by rw [pllPhase1]; decide)

end Ask

